import Mathlib

/-!
Verification of the cron daemon in `main.py` (a long-running daemon that
schedules and executes tasks based on cron expressions).

The dispatcher and runner functions (`load_module_from_file`, `run_task`,
`execute_cron_event`, `setup_scheduler`) are shallowly embedded from the
Python source.  Python side effects are made explicit:

* logging and dynamic-module activity is recorded as a trace (`List Event`);
* the filesystem / import machinery is an oracle (`Env`) mapping a file
  path to a load outcome;
* a Python exception escaping an expression is an `Except.error` carrying
  the message and the trace emitted so far; a `try`/`except` block is the
  explicit handler wrapped around the `_attempt` body.

The cron-expression engine itself lives in the third-party APScheduler
library (only its caller `setup_scheduler` is in the repository source),
so it is modelled from the specification, as documented on each of those
definitions.
-/

/-- One observable step of the daemon: a log record, or an interaction with
a dynamically loaded unit. -/
inductive Event where
  /-- `logger.info(msg)` -/
  | logInfo (msg : String)
  /-- `logger.error(msg)` -/
  | logError (msg : String)
  /-- the module machinery was asked to load the unit at `path` -/
  | loadModule (path : String)
  /-- the event-decision capability `task_id()` of the unit at `path` was invoked -/
  | invokeTaskId (path : String)
  /-- the execution capability `run()` of the task `taskId` was invoked -/
  | invokeRun (taskId : String)
  /-- the Task Runner `run_task` was entered with this task identifier -/
  | runTaskCall (taskId : String)
deriving DecidableEq, Repr

/-- A loaded Python module, abstracted to the two capabilities the daemon
probes with `hasattr`: `task_id()` (event-decision units) and `run()`
(task units).  Each capability either returns a value or raises, which in
the embedding is `Except.error` carrying the exception message. -/
structure PyModule where
  hasTaskId : Bool
  taskIdFn : Except String (Option String)
  hasRun : Bool
  runFn : Except String String
deriving Repr

/-- Outcome of the import machinery on one file path, covering the branches
of `load_module_from_file`: the file does not exist, `spec_from_file_location`
returns no usable spec, `exec_module` raises, or the module loads. -/
inductive LoadOutcome where
  | notFound
  | specFail
  | execRaises (e : String)
  | ok (m : PyModule)
deriving Repr

/-- The ambient filesystem / import machinery, as an oracle from file path
to load outcome. -/
structure Env where
  load : String → LoadOutcome

/-- One entry of `task-definition.json`: `task_info.get('location')` yields
`none` when the key is absent. -/
structure TaskDef where
  location : Option String
deriving DecidableEq, Repr

/-- Python dict lookup `task_definitions[task_id]` over an association list
(`task_id in task_definitions` is `(findTask tid defs).isSome`). -/
def findTask (tid : String) : List (String × TaskDef) → Option TaskDef
  | [] => none
  | (k, v) :: rest => if k = tid then some v else findTask tid rest

/-- Body of the `try` block of `load_module_from_file`: the only raise
point inside it is `spec.loader.exec_module(module)`.  The result is the
returned module (or `none` after a logged failure) together with the trace;
an escaping exception is `Except.error` with the trace emitted before it. -/
def load_module_attempt (env : Env) (file_path : String)
    (module_name : Option String) :
    Except (String × List Event) (Option PyModule × List Event) :=
  match env.load file_path with
  | .notFound =>
      .ok (none, [.logError ("Module file not found: " ++ file_path)])
  | .specFail =>
      .ok (none, [.loadModule file_path,
        .logError ("Failed to load spec for module: " ++ file_path)])
  | .execRaises e =>
      .error (e, [.loadModule file_path])
  | .ok m =>
      .ok (some m, [.loadModule file_path])

/-- `load_module_from_file(file_path, module_name=None)`: the `try` body
wrapped in the `except Exception` handler, which logs the error and
returns `None`. -/
def load_module_from_file (env : Env) (file_path : String)
    (module_name : Option String) : Option PyModule × List Event :=
  match load_module_attempt env file_path module_name with
  | .ok r => r
  | .error (e, evs) =>
      (none, evs ++ [.logError ("Error loading module from " ++ file_path ++ ": " ++ e)])

/-- Body of the `try` block of `run_task(task_id, task_definitions)`: the
only raise point inside it is `task_module.run()` (`load_module_from_file`
catches its own exceptions).  `if not task_location` is Python falsiness:
it fires on a missing key (`none`) and on the empty string. -/
def run_task_attempt (env : Env) (task_id : String)
    (task_definitions : List (String × TaskDef)) :
    Except (String × List Event) (List Event) :=
  match findTask task_id task_definitions with
  | none =>
      .ok [.logError ("Task ID " ++ task_id ++ " not found in task definitions")]
  | some task_info =>
      match task_info.location with
      | none =>
          .ok [.logError ("No location specified for task " ++ task_id)]
      | some task_location =>
          if task_location = "" then
            .ok [.logError ("No location specified for task " ++ task_id)]
          else
            let pre : List Event :=
              [.logInfo ("Running task " ++ task_id ++ " from " ++ task_location)]
            match load_module_from_file env task_location (some ("task_" ++ task_id)) with
            | (none, lgs) =>
                .ok (pre ++ lgs ++
                  [.logError ("Failed to load task module for " ++ task_id)])
            | (some task_module, lgs) =>
                if task_module.hasRun then
                  match task_module.runFn with
                  | .ok v =>
                      .ok (pre ++ lgs ++ [.invokeRun task_id,
                        .logInfo ("Task " ++ task_id ++ " completed with result: " ++ v)])
                  | .error e =>
                      .error (e, pre ++ lgs ++ [.invokeRun task_id])
                else
                  .ok (pre ++ lgs ++
                    [.logError ("Task module " ++ task_id ++ " does not have a run function")])

/-- `run_task(task_id, task_definitions)`: the `try` body wrapped in the
`except Exception` handler, which logs the error and returns. -/
def run_task (env : Env) (task_id : String)
    (task_definitions : List (String × TaskDef)) : List Event :=
  match run_task_attempt env task_id task_definitions with
  | .ok evs => evs
  | .error (e, evs) =>
      evs ++ [.logError ("Error executing task " ++ task_id ++ ": " ++ e)]

/-- Body of the `try` block of
`execute_cron_event(event_script_path, task_definitions)`: the only raise
point inside it is `event_module.task_id()` (`load_module_from_file` and
`run_task` catch their own exceptions).  `if task_id_result is None` is an
identity test against `None`, so only `none` is the no-op signal. -/
def execute_cron_event_attempt (env : Env) (event_script_path : String)
    (task_definitions : List (String × TaskDef)) :
    Except (String × List Event) (List Event) :=
  let pre : List Event :=
    [.logInfo ("Executing cron event: " ++ event_script_path)]
  match load_module_from_file env event_script_path none with
  | (none, lgs) =>
      .ok (pre ++ lgs ++
        [.logError ("Failed to load cron event script: " ++ event_script_path)])
  | (some event_module, lgs) =>
      if event_module.hasTaskId then
        match event_module.taskIdFn with
        | .error e =>
            .error (e, pre ++ lgs ++ [.invokeTaskId event_script_path])
        | .ok none =>
            .ok (pre ++ lgs ++ [.invokeTaskId event_script_path,
              .logInfo ("Cron event " ++ event_script_path ++ " returned None - no task to run")])
        | .ok (some task_id_result) =>
            .ok (pre ++ lgs ++ [.invokeTaskId event_script_path,
              .logInfo ("Cron event " ++ event_script_path ++ " returned task ID: " ++ task_id_result),
              .runTaskCall task_id_result] ++
              run_task env task_id_result task_definitions)
      else
        .ok (pre ++ lgs ++
          [.logError ("Cron event script " ++ event_script_path ++ " does not have a task_id function")])

/-- `execute_cron_event(event_script_path, task_definitions)`: the `try`
body wrapped in the `except Exception` handler, which logs the error and
returns. -/
def execute_cron_event (env : Env) (event_script_path : String)
    (task_definitions : List (String × TaskDef)) : List Event :=
  match execute_cron_event_attempt env event_script_path task_definitions with
  | .ok evs => evs
  | .error (e, evs) =>
      evs ++ [.logError ("Error executing cron event " ++ event_script_path ++ ": " ++ e)]

/-- Number of trace events satisfying `p`. -/
def countE (p : Event → Bool) (evs : List Event) : Nat :=
  (evs.filter p).length

/-- Recognise an `invokeRun` event. -/
def Event.isInvokeRun : Event → Bool
  | .invokeRun _ => true
  | _ => false

/-- Recognise an `invokeTaskId` event. -/
def Event.isInvokeTaskId : Event → Bool
  | .invokeTaskId _ => true
  | _ => false

/-- Recognise a `runTaskCall` event. -/
def Event.isRunTaskCall : Event → Bool
  | .runTaskCall _ => true
  | _ => false

/-- Recognise a `loadModule` event. -/
def Event.isLoadModule : Event → Bool
  | .loadModule _ => true
  | _ => false

/-- Recognise a `logError` event. -/
def Event.isLogError : Event → Bool
  | .logError _ => true
  | _ => false

/-- Splits a character list at every character satisfying `p`, keeping
empty segments (the helper under `pyTokens` and `splitChar`). -/
def splitPred (p : Char → Bool) : List Char → List (List Char)
  | [] => [[]]
  | c :: rest =>
    match splitPred p rest with
    | h :: t => if p c then [] :: h :: t else (c :: h) :: t
    | [] => [[c]]

/-- Python `str.split()` with no argument, as used by
`cron_expression.split()` in `setup_scheduler`: split on whitespace runs
and drop empty tokens. -/
def pyTokens (s : String) : List (List Char) :=
  (splitPred Char.isWhitespace s.data).filter (fun t => t ≠ [])

/-- Split on one separator character, keeping empty segments (Python
`str.split(sep)`). -/
def splitChar (sep : Char) (cs : List Char) : List (List Char) :=
  splitPred (fun c => c = sep) cs

/-- A nonempty all-digit character list read as a natural number;
anything else is a parse failure. -/
def natOfChars : List Char → Option Nat
  | [] => none
  | cs =>
    if cs.all Char.isDigit then
      some (cs.foldl (fun acc c => acc * 10 + (c.toNat - 48)) 0)
    else none

/-- The ascending list of field values from `lo` to `hi` inclusive. -/
def domainList (lo hi : Nat) : List Nat :=
  (List.range (hi + 1 - lo)).map (fun k => lo + k)

/-- Modelled from the spec: the base of a cron field atom inside the
domain `lo..hi` — a single integer value or a range `a-b`; the value set
it denotes, or a parse failure on an out-of-domain value or other token
(spec section 4.1, Cron Expression Engine).  The engine itself is the
third-party APScheduler `CronTrigger`, absent from the repository source. -/
def parseBase (lo hi : Nat) (cs : List Char) : Option (List Nat) :=
  match splitChar '-' cs with
  | [a] =>
    match natOfChars a with
    | some n => if lo ≤ n ∧ n ≤ hi then some [n] else none
    | none => none
  | [a, b] =>
    match natOfChars a, natOfChars b with
    | some x, some y =>
        if lo ≤ x ∧ x ≤ y ∧ y ≤ hi then some (domainList x y) else none
    | _, _ => none
  | _ => none

/-- Every `k`-th value of an ascending base list, starting from its head
(the `/k` step of a cron field). -/
def stepFilter (vs : List Nat) (k : Nat) : List Nat :=
  match vs with
  | [] => []
  | h :: _ => vs.filter (fun v => (v - h) % k = 0)

/-- Modelled from the spec: one comma-list element of a cron field —
wildcard `*`, single value, range, or a step `base/k` with base `*` or a
range; the value set it denotes, or a parse failure (spec section 4.1). -/
def parseAtom (lo hi : Nat) (cs : List Char) : Option (List Nat) :=
  if cs = ['*'] then some (domainList lo hi)
  else
    match splitChar '/' cs with
    | [b] => parseBase lo hi b
    | [b, st] =>
      match natOfChars st with
      | some k =>
          if k = 0 then none
          else
            match (if b = ['*'] then some (domainList lo hi) else parseBase lo hi b) with
            | some vs => some (stepFilter vs k)
            | none => none
      | none => none
    | _ => none

/-- Modelled from the spec: a whole cron field — a comma-list of atoms;
the union of their value sets, or a parse failure (spec section 4.1). -/
def parseField (lo hi : Nat) (cs : List Char) : Option (List Nat) :=
  match (splitChar ',' cs).mapM (parseAtom lo hi) with
  | some parts => some parts.flatten
  | none => none

/-- Modelled from the spec: an immutable parsed CronSchedule — five value
sets (minute 0-59, hour 0-23, day-of-month 1-31, month 1-12, day-of-week
0-6 with 1 denoting Monday), plus whether the day-of-month and day-of-week
fields were written as the bare wildcard, which decides the OR combination
(spec section 3, Data Model, and 4.1). -/
structure CronSchedule where
  minutes : List Nat
  hours : List Nat
  days : List Nat
  months : List Nat
  dows : List Nat
  dayStar : Bool
  dowStar : Bool
deriving DecidableEq, Repr

/-- Modelled from the spec: construction of the schedule from the five
field strings, as `CronTrigger(minute=..., hour=..., day=..., month=...,
day_of_week=...)` receives them in `setup_scheduler`; any out-of-domain
value or malformed field raises, i.e. yields `none` (spec sections 4.1, 7). -/
def mkCronTrigger (minute hour day month day_of_week : List Char) :
    Option CronSchedule :=
  match parseField 0 59 minute, parseField 0 23 hour, parseField 1 31 day,
      parseField 1 12 month, parseField 0 6 day_of_week with
  | some mi, some h, some d, some mo, some dw =>
      some ⟨mi, h, d, mo, dw, day = ['*'], day_of_week = ['*']⟩
  | _, _, _, _, _ => none

/-- Modelled from the spec: `parse(expression)` — exactly five
whitespace-separated fields, each parsed in its domain; any other token
count or out-of-domain value is a parse failure (spec section 4.1). -/
def parse (expression : String) : Option CronSchedule :=
  match pyTokens expression with
  | [mi, h, d, mo, dw] => mkCronTrigger mi h d mo dw
  | _ => none

/-- A minute-resolution calendar instant, by the components the five cron
fields constrain.  `dow` is the day of week with `1` denoting Monday. -/
structure Instant where
  minute : Nat
  hour : Nat
  day : Nat
  month : Nat
  dow : Nat
deriving DecidableEq, Repr

/-- The components of the instant lie in their calendar domains. -/
def Instant.valid (t : Instant) : Prop :=
  t.minute ≤ 59 ∧ t.hour ≤ 23 ∧ 1 ≤ t.day ∧ t.day ≤ 31 ∧
    1 ≤ t.month ∧ t.month ≤ 12 ∧ t.dow ≤ 6

instance (t : Instant) : Decidable t.valid := by
  unfold Instant.valid; infer_instance

/-- Modelled from the spec: `matches(schedule, instant)` — each field is
evaluated independently against the corresponding component; day-of-month
and day-of-week are combined with OR semantics when both are restricted
(neither written `*`), standard cron convention (spec section 4.1). -/
def CronSchedule.matchesInstant (s : CronSchedule) (t : Instant) : Bool :=
  s.minutes.contains t.minute && s.hours.contains t.hour &&
    s.months.contains t.month &&
    (if !s.dayStar && !s.dowStar then
      s.days.contains t.day || s.dows.contains t.dow
    else
      s.days.contains t.day && s.dows.contains t.dow)

/-- One entry of `cron.json`: `job.get('cron')` and `job.get('task-reference')`
yield `none` when the key is absent. -/
structure Job where
  cron : Option String
  taskRef : Option String
deriving DecidableEq, Repr

/-- A job registered on the scheduler by `scheduler.add_job`: its index
(also its stable id `cron_job_{idx}`), its parsed trigger, and the
event-script reference passed as argument. -/
structure ScheduledJob where
  idx : Nat
  sched : CronSchedule
  taskRef : String
deriving DecidableEq, Repr

/-- A log record of `setup_scheduler`, tagged with the index of the cron
job entry it concerns. -/
inductive SetupLog where
  | errorAt (idx : Nat) (msg : String)
  | infoAt (idx : Nat) (msg : String)
deriving DecidableEq, Repr

/-- The malformed-entry test of `setup_scheduler` on one entry:
`if not cron_expression or not task_reference` (Python falsiness: a missing
key or an empty string), then the five-token check on
`cron_expression.split()`, then the field validation performed by the
`CronTrigger` constructor (an out-of-domain or malformed field raises). -/
def jobMalformed (j : Job) : Bool :=
  match j.cron, j.taskRef with
  | some ce, some tr =>
    if ce = "" ∨ tr = "" then true
    else
      match pyTokens ce with
      | [mi, h, d, mo, dw] => (mkCronTrigger mi h d mo dw).isNone
      | _ => true
  | _, _ => true

/-- The body of the `for idx, job in enumerate(cron_jobs)` loop of
`setup_scheduler` on one entry: skip (with a logged error) a missing/empty
expression or reference, a token count other than five, or a `CronTrigger`
constructor failure; otherwise register the job. -/
def setupJob (idx : Nat) (j : Job) : Option ScheduledJob × List SetupLog :=
  match j.cron, j.taskRef with
  | some ce, some tr =>
    if ce = "" ∨ tr = "" then
      (none, [.errorAt idx "Invalid cron job definition"])
    else
      match pyTokens ce with
      | [mi, h, d, mo, dw] =>
        match mkCronTrigger mi h d mo dw with
        | some s =>
            (some ⟨idx, s, tr⟩,
              [.infoAt idx ("Scheduled cron job: " ++ ce ++ " -> " ++ tr)])
        | none => (none, [.errorAt idx "Error adding cron job"])
      | _ => (none, [.errorAt idx ("Invalid cron expression format: " ++ ce)])
  | _, _ => (none, [.errorAt idx "Invalid cron job definition"])

/-- The enumeration loop of `setup_scheduler`, indexing entries from
`start`. -/
def setupGo (start : Nat) : List Job → List ScheduledJob × List SetupLog
  | [] => ([], [])
  | j :: rest =>
    let (r, lg) := setupJob start j
    let (rs, lgs) := setupGo (start + 1) rest
    (r.toList ++ rs, lg ++ lgs)

/-- `setup_scheduler(cron_jobs, task_definitions)`: builds the scheduler by
running the enumeration loop from index 0, returning the registered jobs
and the log. -/
def setup_scheduler (cron_jobs : List Job) : List ScheduledJob × List SetupLog :=
  setupGo 0 cron_jobs

/-- A cron entry index fires at an instant when a job registered under that
index has a schedule matching the instant. -/
def firesAt (regs : List ScheduledJob) (idx : Nat) (t : Instant) : Prop :=
  ∃ r ∈ regs, r.idx = idx ∧ r.sched.matchesInstant t = true

/-- Fixture: an event-decision unit returning the task id `example`. -/
def mEvOk : PyModule := ⟨true, .ok (some "example"), false, .error "no run"⟩

/-- Fixture: an event-decision unit returning the no-op signal `None`. -/
def mEvNone : PyModule := ⟨true, .ok none, false, .error "no run"⟩

/-- Fixture: an event-decision unit returning the empty string. -/
def mEvEmpty : PyModule := ⟨true, .ok (some ""), false, .error "no run"⟩

/-- Fixture: an event-decision unit whose decision capability raises. -/
def mEvRaise : PyModule := ⟨true, .error "boom", false, .error "no run"⟩

/-- Fixture: a unit without the `task_id` capability. -/
def mEvNoCap : PyModule := ⟨false, .ok none, true, .ok "r"⟩

/-- Fixture: a task unit whose `run()` returns `True`. -/
def mTaskOk : PyModule := ⟨false, .ok none, true, .ok "True"⟩

/-- Fixture: a task unit whose `run()` raises. -/
def mTaskRaise : PyModule := ⟨false, .ok none, true, .error "task boom"⟩

/-- Fixture: a unit without the `run` capability. -/
def mTaskNoCap : PyModule := ⟨false, .ok none, false, .ok "r"⟩

/-- Fixture environment mapping concrete script paths to the fixture
units. -/
def envW : Env := ⟨fun p =>
  if p = "ev.py" then .ok mEvOk
  else if p = "evnone.py" then .ok mEvNone
  else if p = "evempty.py" then .ok mEvEmpty
  else if p = "evraise.py" then .ok mEvRaise
  else if p = "evnocap.py" then .ok mEvNoCap
  else if p = "task.py" then .ok mTaskOk
  else if p = "taskraise.py" then .ok mTaskRaise
  else if p = "tasknocap.py" then .ok mTaskNoCap
  else if p = "raise.py" then .execRaises "load boom"
  else .notFound⟩

/-- Fixture task catalog. -/
def defsW : List (String × TaskDef) :=
  [("example", ⟨some "task.py"⟩), ("noloc", ⟨none⟩), ("emptyloc", ⟨some ""⟩),
   ("boomtask", ⟨some "taskraise.py"⟩), ("nocap", ⟨some "tasknocap.py"⟩)]

lemma countE_append (p : Event → Bool) (a b : List Event) :
    countE p (a ++ b) = countE p a + countE p b := by
  simp [countE, List.filter_append]

/-- The trace of `load_module_from_file` holds no capability invocation
and no Task Runner entry. -/
lemma load_module_pure (env : Env) (p : String) (mn : Option String) :
    ∀ e ∈ (load_module_from_file env p mn).2,
      Event.isInvokeRun e = false ∧ Event.isInvokeTaskId e = false ∧
        Event.isRunTaskCall e = false := by
  unfold load_module_from_file load_module_attempt
  cases env.load p <;> intro e he <;>
    simp only [List.mem_singleton, List.mem_cons, List.mem_append,
      List.not_mem_nil, or_false] at he
  case notFound => subst he; exact ⟨rfl, rfl, rfl⟩
  case specFail => rcases he with he | he <;> subst he <;> exact ⟨rfl, rfl, rfl⟩
  case execRaises e' =>
      rcases he with he | he <;> subst he <;> exact ⟨rfl, rfl, rfl⟩
  case ok m => subst he; exact ⟨rfl, rfl, rfl⟩

/-- A trace all of whose events fail `p` contributes nothing to `countE`. -/
lemma countE_eq_zero (p : Event → Bool) (evs : List Event)
    (h : ∀ e ∈ evs, p e = false) : countE p evs = 0 := by
  simp only [countE, List.length_eq_zero, List.filter_eq_nil_iff]
  intro a ha
  simp [h a ha]

/-- The trace delivered by `load_module_from_file` next to its result
holds no capability invocation and no Task Runner entry, in filter form. -/
lemma load_filters (env : Env) (p : String) (mn : Option String)
    (mq : Option PyModule) (lgs : List Event)
    (h : load_module_from_file env p mn = (mq, lgs)) :
    List.filter Event.isInvokeRun lgs = [] ∧
    List.filter Event.isInvokeTaskId lgs = [] ∧
    List.filter Event.isRunTaskCall lgs = [] := by
  have hp := load_module_pure env p mn
  rw [h] at hp
  exact ⟨List.filter_eq_nil_iff.mpr (fun a ha => by simp [(hp a ha).1]),
    List.filter_eq_nil_iff.mpr (fun a ha => by simp [(hp a ha).2.1]),
    List.filter_eq_nil_iff.mpr (fun a ha => by simp [(hp a ha).2.2])⟩

/-- The trace of `run_task` holds at most one `run()` invocation, and no
`task_id()` invocation and no Task Runner entry of its own. -/
lemma run_task_counts (env : Env) (tid : String)
    (defs : List (String × TaskDef)) :
    countE Event.isInvokeRun (run_task env tid defs) ≤ 1 ∧
    countE Event.isInvokeTaskId (run_task env tid defs) = 0 ∧
    countE Event.isRunTaskCall (run_task env tid defs) = 0 := by
  unfold run_task run_task_attempt
  cases h1 : findTask tid defs with
  | none =>
      simp [countE, Event.isInvokeRun, Event.isInvokeTaskId, Event.isRunTaskCall]
  | some info =>
    cases h2 : info.location with
    | none =>
        simp [h2, countE, Event.isInvokeRun, Event.isInvokeTaskId, Event.isRunTaskCall]
    | some loc =>
      simp only [h2]
      by_cases h3 : loc = ""
      · simp [h3, countE, Event.isInvokeRun, Event.isInvokeTaskId, Event.isRunTaskCall]
      · simp only [if_neg h3]
        cases h4 : load_module_from_file env loc (some ("task_" ++ tid)) with
        | mk mq lgs =>
          obtain ⟨f1, f2, f3⟩ := load_filters env loc (some ("task_" ++ tid)) mq lgs h4
          cases mq with
          | none =>
              simp [countE, List.filter_append, f1, f2, f3,
                Event.isInvokeRun, Event.isInvokeTaskId, Event.isRunTaskCall]
          | some m =>
            by_cases h5 : m.hasRun
            · simp only [h5, if_true]
              cases h6 : m.runFn with
              | ok v =>
                  simp [countE, List.filter_append, f1, f2, f3,
                    Event.isInvokeRun, Event.isInvokeTaskId, Event.isRunTaskCall]
              | error e =>
                  simp [countE, List.filter_append, f1, f2, f3,
                    Event.isInvokeRun, Event.isInvokeTaskId, Event.isRunTaskCall]
            · simp [h5, countE, List.filter_append, f1, f2, f3,
                Event.isInvokeRun, Event.isInvokeTaskId, Event.isRunTaskCall]

/-- The trace of `execute_cron_event` holds at most one `task_id()`
invocation, at most one `run()` invocation, and at most one Task Runner
entry. -/
lemma execute_counts (env : Env) (path : String)
    (defs : List (String × TaskDef)) :
    countE Event.isInvokeTaskId (execute_cron_event env path defs) ≤ 1 ∧
    countE Event.isInvokeRun (execute_cron_event env path defs) ≤ 1 ∧
    countE Event.isRunTaskCall (execute_cron_event env path defs) ≤ 1 := by
  unfold execute_cron_event execute_cron_event_attempt
  cases h4 : load_module_from_file env path none with
  | mk mq lgs =>
    obtain ⟨f1, f2, f3⟩ := load_filters env path none mq lgs h4
    cases mq with
    | none =>
        simp [countE, List.filter_append, f1, f2, f3,
          Event.isInvokeRun, Event.isInvokeTaskId, Event.isRunTaskCall]
    | some m =>
      by_cases h5 : m.hasTaskId
      · simp only [h5, if_true]
        cases h6 : m.taskIdFn with
        | error e =>
            simp [countE, List.filter_append, f1, f2, f3,
              Event.isInvokeRun, Event.isInvokeTaskId, Event.isRunTaskCall]
        | ok v =>
          cases v with
          | none =>
              simp [countE, List.filter_append, f1, f2, f3,
                Event.isInvokeRun, Event.isInvokeTaskId, Event.isRunTaskCall]
          | some tid =>
              obtain ⟨r1, r2, r3⟩ := run_task_counts env tid defs
              simp only [countE] at r1 r2 r3
              refine ⟨?_, ?_, ?_⟩
              · simp [countE, List.filter_append, f2, r2, Event.isInvokeTaskId]
              · simpa [countE, List.filter_append, f1, Event.isInvokeRun] using r1
              · simp [countE, List.filter_append, f3, r3, Event.isRunTaskCall]
      · simp [h5, countE, List.filter_append, f1, f2, f3,
          Event.isInvokeRun, Event.isInvokeTaskId, Event.isRunTaskCall]

/-- An unknown task identifier reduces `run_task` to a single logged
error. -/
lemma run_task_unknown_eq (env : Env) (tid : String)
    (defs : List (String × TaskDef)) (h : findTask tid defs = none) :
    run_task env tid defs =
      [Event.logError ("Task ID " ++ tid ++ " not found in task definitions")] := by
  unfold run_task run_task_attempt
  rw [h]

/-- C5: for every task identifier absent from the task catalog, `run_task`
logs an error and performs no execution: no unit is loaded and no
execution capability is invoked. -/
theorem run_task_unknown_id (env : Env) (task_id : String)
    (defs : List (String × TaskDef)) (h : findTask task_id defs = none) :
    run_task env task_id defs =
      [Event.logError ("Task ID " ++ task_id ++ " not found in task definitions")] ∧
    countE Event.isLoadModule (run_task env task_id defs) = 0 ∧
    countE Event.isInvokeRun (run_task env task_id defs) = 0 := by
  have he := run_task_unknown_eq env task_id defs h
  refine ⟨he, ?_, ?_⟩ <;>
    rw [he] <;> simp [countE, Event.isLoadModule, Event.isInvokeRun]

/-- Witness for C5 at a concrete unknown task id. -/
theorem run_task_unknown_id_witness :
    run_task envW "ghost" defsW =
      [Event.logError ("Task ID " ++ "ghost" ++ " not found in task definitions")] ∧
    countE Event.isLoadModule (run_task envW "ghost" defsW) = 0 ∧
    countE Event.isInvokeRun (run_task envW "ghost" defsW) = 0 :=
  run_task_unknown_id envW "ghost" defsW (by decide)

/-- C10: a catalog entry with a missing (or empty) location makes
`run_task` log an error and return without loading a module or invoking
any execution capability. -/
theorem run_task_missing_location (env : Env) (task_id : String)
    (defs : List (String × TaskDef)) (info : TaskDef)
    (h1 : findTask task_id defs = some info)
    (h2 : info.location = none ∨ info.location = some "") :
    run_task env task_id defs =
      [Event.logError ("No location specified for task " ++ task_id)] ∧
    countE Event.isLoadModule (run_task env task_id defs) = 0 ∧
    countE Event.isInvokeRun (run_task env task_id defs) = 0 := by
  have he : run_task env task_id defs =
      [Event.logError ("No location specified for task " ++ task_id)] := by
    unfold run_task run_task_attempt
    simp only [h1]
    rcases h2 with h2 | h2 <;> simp only [h2] <;> simp
  refine ⟨he, ?_, ?_⟩ <;>
    rw [he] <;> simp [countE, Event.isLoadModule, Event.isInvokeRun]

/-- Witness for C10 at concrete catalog entries with an absent and with an
empty location. -/
theorem run_task_missing_location_witness :
    run_task envW "noloc" defsW =
      [Event.logError ("No location specified for task " ++ "noloc")] ∧
    run_task envW "emptyloc" defsW =
      [Event.logError ("No location specified for task " ++ "emptyloc")] :=
  ⟨(run_task_missing_location envW "noloc" defsW ⟨none⟩ (by decide)
      (Or.inl rfl)).1,
    (run_task_missing_location envW "emptyloc" defsW ⟨some ""⟩ (by decide)
      (Or.inr rfl)).1⟩

/-- C9: `load_module_from_file` is total with respect to exceptions: the
result is `none` exactly on the failure outcomes (nonexistent file, spec
creation failure, or an exception raised while executing the module); a
`none` result comes with a logged error; and the exception raised by
`exec_module` is caught by the handler rather than propagated. -/
theorem load_module_from_file_total (env : Env) (fp : String)
    (mn : Option String) :
    ((load_module_from_file env fp mn).1 = none ↔
      ∀ m, env.load fp ≠ LoadOutcome.ok m) ∧
    ((load_module_from_file env fp mn).1 = none →
      ∃ msg, Event.logError msg ∈ (load_module_from_file env fp mn).2) ∧
    (∀ e, env.load fp = LoadOutcome.execRaises e →
      load_module_attempt env fp mn =
        Except.error (e, [Event.loadModule fp]) ∧
      load_module_from_file env fp mn =
        (none, [Event.loadModule fp,
          Event.logError ("Error loading module from " ++ fp ++ ": " ++ e)])) := by
  cases h : env.load fp with
  | notFound =>
      have hres : load_module_from_file env fp mn =
          (none, [Event.logError ("Module file not found: " ++ fp)]) := by
        unfold load_module_from_file load_module_attempt
        rw [h]
      refine ⟨by simp [hres, h],
        fun _ => ⟨"Module file not found: " ++ fp, by simp [hres]⟩, ?_⟩
      intro e he
      simp at he
  | specFail =>
      have hres : load_module_from_file env fp mn =
          (none, [Event.loadModule fp,
            Event.logError ("Failed to load spec for module: " ++ fp)]) := by
        unfold load_module_from_file load_module_attempt
        rw [h]
      refine ⟨by simp [hres, h],
        fun _ => ⟨"Failed to load spec for module: " ++ fp, by simp [hres]⟩, ?_⟩
      intro e he
      simp at he
  | execRaises e0 =>
      have hres : load_module_from_file env fp mn =
          (none, [Event.loadModule fp,
            Event.logError ("Error loading module from " ++ fp ++ ": " ++ e0)]) := by
        unfold load_module_from_file load_module_attempt
        rw [h]
        rfl
      have hatt : load_module_attempt env fp mn =
          Except.error (e0, [Event.loadModule fp]) := by
        unfold load_module_attempt
        rw [h]
      refine ⟨by simp [hres, h],
        fun _ => ⟨"Error loading module from " ++ fp ++ ": " ++ e0, by simp [hres]⟩, ?_⟩
      intro e he
      injection he with he
      subst he
      exact ⟨hatt, hres⟩
  | ok m =>
      have hres : load_module_from_file env fp mn =
          (some m, [Event.loadModule fp]) := by
        unfold load_module_from_file load_module_attempt
        rw [h]
      refine ⟨⟨fun hc => absurd hc (by simp [hres]),
          fun hall => absurd rfl (hall m)⟩,
        fun hc => absurd hc (by simp [hres]), ?_⟩
      intro e he
      simp at he

/-- C4: `run_task` and `execute_cron_event` never propagate an exception:
an exception escaping the `try` body is handled by appending a logged
error, and within one call the execution capability is invoked at most
once (and the decision capability at most once). -/
theorem dispatch_no_propagation (env : Env) (task_id event_script_path : String)
    (defs : List (String × TaskDef)) :
    countE Event.isInvokeRun (run_task env task_id defs) ≤ 1 ∧
    (∀ e evs, run_task_attempt env task_id defs = Except.error (e, evs) →
      run_task env task_id defs =
        evs ++ [Event.logError ("Error executing task " ++ task_id ++ ": " ++ e)]) ∧
    countE Event.isInvokeRun (execute_cron_event env event_script_path defs) ≤ 1 ∧
    countE Event.isInvokeTaskId (execute_cron_event env event_script_path defs) ≤ 1 ∧
    (∀ e evs,
      execute_cron_event_attempt env event_script_path defs = Except.error (e, evs) →
      execute_cron_event env event_script_path defs =
        evs ++ [Event.logError
          ("Error executing cron event " ++ event_script_path ++ ": " ++ e)]) := by
  refine ⟨(run_task_counts env task_id defs).1, ?_,
    (execute_counts env event_script_path defs).2.1,
    (execute_counts env event_script_path defs).1, ?_⟩
  · intro e evs h
    unfold run_task
    rw [h]
  · intro e evs h
    unfold execute_cron_event
    rw [h]

/-- Witness for C4: a task unit whose `run()` raises is caught and
logged, with exactly one invocation. -/
theorem dispatch_no_propagation_witness :
    countE Event.isInvokeRun (run_task envW "boomtask" defsW) ≤ 1 ∧
    run_task envW "boomtask" defsW =
      [Event.logInfo ("Running task " ++ "boomtask" ++ " from " ++ "taskraise.py"),
       Event.loadModule "taskraise.py", Event.invokeRun "boomtask"] ++
      [Event.logError ("Error executing task " ++ "boomtask" ++ ": " ++ "task boom")] :=
  ⟨(dispatch_no_propagation envW "boomtask" "ev.py" defsW).1,
    (dispatch_no_propagation envW "boomtask" "ev.py" defsW).2.1 "task boom"
      [Event.logInfo ("Running task " ++ "boomtask" ++ " from " ++ "taskraise.py"),
       Event.loadModule "taskraise.py", Event.invokeRun "boomtask"] rfl⟩

/-- Trace equations of `execute_cron_event` when the event unit loads and
exposes `task_id`, one per outcome of the decision capability. -/
lemma exec_trace_eq (env : Env) (path : String)
    (defs : List (String × TaskDef)) (m : PyModule)
    (h1 : env.load path = LoadOutcome.ok m) (h2 : m.hasTaskId = true) :
    (∀ e, m.taskIdFn = Except.error e →
      execute_cron_event env path defs =
        [Event.logInfo ("Executing cron event: " ++ path), Event.loadModule path,
         Event.invokeTaskId path,
         Event.logError ("Error executing cron event " ++ path ++ ": " ++ e)]) ∧
    (m.taskIdFn = Except.ok none →
      execute_cron_event env path defs =
        [Event.logInfo ("Executing cron event: " ++ path), Event.loadModule path,
         Event.invokeTaskId path,
         Event.logInfo ("Cron event " ++ path ++ " returned None - no task to run")]) ∧
    (∀ tid, m.taskIdFn = Except.ok (some tid) →
      execute_cron_event env path defs =
        [Event.logInfo ("Executing cron event: " ++ path), Event.loadModule path,
         Event.invokeTaskId path,
         Event.logInfo ("Cron event " ++ path ++ " returned task ID: " ++ tid),
         Event.runTaskCall tid] ++ run_task env tid defs) := by
  have hl : load_module_from_file env path none =
      (some m, [Event.loadModule path]) := by
    unfold load_module_from_file load_module_attempt
    rw [h1]
  unfold execute_cron_event execute_cron_event_attempt
  rw [hl]
  refine ⟨?_, ?_, ?_⟩
  · intro e he
    simp [h2, he]
  · intro he
    simp [h2, he]
  · intro tid he
    simp [h2, he]

/-- C6: when the event unit loads and exposes `task_id`, the decision
capability is invoked exactly once; a `None` decision runs no task, and a
task-identifier decision enters the Task Runner exactly once, with that
identifier and the full catalog. -/
theorem dispatch_decision_forwarding (env : Env) (path : String)
    (defs : List (String × TaskDef)) (m : PyModule)
    (h1 : env.load path = LoadOutcome.ok m) (h2 : m.hasTaskId = true) :
    countE Event.isInvokeTaskId (execute_cron_event env path defs) = 1 ∧
    (m.taskIdFn = Except.ok none →
      countE Event.isRunTaskCall (execute_cron_event env path defs) = 0 ∧
      countE Event.isInvokeRun (execute_cron_event env path defs) = 0) ∧
    (∀ tid, m.taskIdFn = Except.ok (some tid) →
      execute_cron_event env path defs =
        [Event.logInfo ("Executing cron event: " ++ path), Event.loadModule path,
         Event.invokeTaskId path,
         Event.logInfo ("Cron event " ++ path ++ " returned task ID: " ++ tid),
         Event.runTaskCall tid] ++ run_task env tid defs ∧
      countE Event.isRunTaskCall (execute_cron_event env path defs) = 1) := by
  obtain ⟨he1, he2, he3⟩ := exec_trace_eq env path defs m h1 h2
  refine ⟨?_, ?_, ?_⟩
  · cases h6 : m.taskIdFn with
    | error e =>
        rw [he1 e h6]
        simp [countE, Event.isInvokeTaskId]
    | ok v =>
      cases v with
      | none =>
          rw [he2 h6]
          simp [countE, Event.isInvokeTaskId]
      | some tid =>
          obtain ⟨r1, r2, r3⟩ := run_task_counts env tid defs
          simp only [countE] at r2
          rw [he3 tid h6]
          simp [countE, List.filter_append, r2, Event.isInvokeTaskId]
  · intro h6
    rw [he2 h6]
    simp [countE, Event.isRunTaskCall, Event.isInvokeRun]
  · intro tid h6
    obtain ⟨r1, r2, r3⟩ := run_task_counts env tid defs
    simp only [countE] at r3
    refine ⟨he3 tid h6, ?_⟩
    rw [he3 tid h6]
    simp [countE, List.filter_append, r3, Event.isRunTaskCall]

/-- Witness for C6: the fixture event unit returns `example`, and the
trace enters the Task Runner with it once. -/
theorem dispatch_decision_forwarding_witness :
    execute_cron_event envW "ev.py" defsW =
      [Event.logInfo ("Executing cron event: " ++ "ev.py"), Event.loadModule "ev.py",
       Event.invokeTaskId "ev.py",
       Event.logInfo ("Cron event " ++ "ev.py" ++ " returned task ID: " ++ "example"),
       Event.runTaskCall "example"] ++ run_task envW "example" defsW ∧
    countE Event.isRunTaskCall (execute_cron_event envW "ev.py" defsW) = 1 :=
  (dispatch_decision_forwarding envW "ev.py" defsW mEvOk rfl rfl).2.2 "example" rfl

/-- C7: a loaded unit missing its required capability (an event unit
without `task_id`, or a task unit without `run`) makes the invocation end
with a logged error and nothing executed. -/
theorem missing_capability_abandoned (env : Env) (path task_id : String)
    (defs : List (String × TaskDef)) :
    (∀ m, env.load path = LoadOutcome.ok m → m.hasTaskId = false →
      execute_cron_event env path defs =
        [Event.logInfo ("Executing cron event: " ++ path), Event.loadModule path,
         Event.logError ("Cron event script " ++ path ++
           " does not have a task_id function")] ∧
      countE Event.isInvokeTaskId (execute_cron_event env path defs) = 0 ∧
      countE Event.isInvokeRun (execute_cron_event env path defs) = 0 ∧
      countE Event.isRunTaskCall (execute_cron_event env path defs) = 0) ∧
    (∀ m info loc, findTask task_id defs = some info → info.location = some loc →
      loc ≠ "" → env.load loc = LoadOutcome.ok m → m.hasRun = false →
      run_task env task_id defs =
        [Event.logInfo ("Running task " ++ task_id ++ " from " ++ loc),
         Event.loadModule loc,
         Event.logError ("Task module " ++ task_id ++
           " does not have a run function")] ∧
      countE Event.isInvokeRun (run_task env task_id defs) = 0) := by
  constructor
  · intro m h1 h2
    have hl : load_module_from_file env path none =
        (some m, [Event.loadModule path]) := by
      unfold load_module_from_file load_module_attempt
      rw [h1]
    have htr : execute_cron_event env path defs =
        [Event.logInfo ("Executing cron event: " ++ path), Event.loadModule path,
         Event.logError ("Cron event script " ++ path ++
           " does not have a task_id function")] := by
      unfold execute_cron_event execute_cron_event_attempt
      rw [hl]
      simp [h2]
    rw [htr]
    refine ⟨rfl, ?_, ?_, ?_⟩ <;>
      simp [countE, Event.isInvokeTaskId, Event.isInvokeRun, Event.isRunTaskCall]
  · intro m info loc hf hloc hne h1 h2
    have hl : load_module_from_file env loc (some ("task_" ++ task_id)) =
        (some m, [Event.loadModule loc]) := by
      unfold load_module_from_file load_module_attempt
      rw [h1]
    have htr : run_task env task_id defs =
        [Event.logInfo ("Running task " ++ task_id ++ " from " ++ loc),
         Event.loadModule loc,
         Event.logError ("Task module " ++ task_id ++
           " does not have a run function")] := by
      unfold run_task run_task_attempt
      simp only [hf, hloc, if_neg hne]
      rw [hl]
      simp [h2]
    rw [htr]
    refine ⟨rfl, ?_⟩
    simp [countE, Event.isInvokeRun]

/-- Witness for C7 at a capability-less event unit and a capability-less
task unit. -/
theorem missing_capability_abandoned_witness :
    execute_cron_event envW "evnocap.py" defsW =
      [Event.logInfo ("Executing cron event: " ++ "evnocap.py"),
       Event.loadModule "evnocap.py",
       Event.logError ("Cron event script " ++ "evnocap.py" ++
         " does not have a task_id function")] ∧
    run_task envW "nocap" defsW =
      [Event.logInfo ("Running task " ++ "nocap" ++ " from " ++ "tasknocap.py"),
       Event.loadModule "tasknocap.py",
       Event.logError ("Task module " ++ "nocap" ++
         " does not have a run function")] :=
  ⟨((missing_capability_abandoned envW "evnocap.py" "nocap" defsW).1
      mEvNoCap rfl rfl).1,
    ((missing_capability_abandoned envW "evnocap.py" "nocap" defsW).2
      mTaskNoCap ⟨some "tasknocap.py"⟩ "tasknocap.py" (by decide) rfl
      (by decide) rfl rfl).1⟩

/-- C8: only the exact `None` decision is the no-op signal; any other
returned value, the empty string included, is forwarded to the Task
Runner, where an identifier absent from the catalog yields a logged
unknown-task error. -/
theorem none_is_only_noop (env : Env) (path : String)
    (defs : List (String × TaskDef)) (m : PyModule) (v : String)
    (h1 : env.load path = LoadOutcome.ok m) (h2 : m.hasTaskId = true)
    (h3 : m.taskIdFn = Except.ok (some v)) :
    Event.runTaskCall v ∈ execute_cron_event env path defs ∧
    (findTask v defs = none →
      Event.logError ("Task ID " ++ v ++ " not found in task definitions") ∈
        execute_cron_event env path defs) := by
  have htr := (exec_trace_eq env path defs m h1 h2).2.2 v h3
  refine ⟨?_, ?_⟩
  · rw [htr]
    simp
  · intro hnone
    rw [htr, run_task_unknown_eq env v defs hnone]
    simp

/-- Witness for C8: the fixture event unit returning the empty string
leads to a Task Runner entry with the empty identifier and an
unknown-task error. -/
theorem none_is_only_noop_witness :
    Event.runTaskCall "" ∈ execute_cron_event envW "evempty.py" defsW ∧
    Event.logError ("Task ID " ++ "" ++ " not found in task definitions") ∈
      execute_cron_event envW "evempty.py" defsW :=
  ⟨(none_is_only_noop envW "evempty.py" defsW mEvEmpty "" rfl rfl rfl).1,
    (none_is_only_noop envW "evempty.py" defsW mEvEmpty "" rfl rfl rfl).2
      (by decide)⟩

/-- Membership in the inclusive value range of a field domain. -/
lemma mem_domainList (lo hi n : Nat) :
    n ∈ domainList lo hi ↔ lo ≤ n ∧ n ≤ hi := by
  unfold domainList
  simp only [List.mem_map, List.mem_range]
  constructor
  · rintro ⟨k, hk, rfl⟩
    omega
  · rintro ⟨ha, hb⟩
    exact ⟨n - lo, by omega, by omega⟩

/-- C1: parsing the five-field expression `0 9 * * 1` succeeds, and the
resulting schedule matches a valid instant exactly when it is minute 0 of
hour 9 on day-of-week 1 (the fixed day denoting Monday) — never any other
day or minute. -/
theorem cron_parse_matches_monday_nine (t : Instant) (hv : t.valid) :
    ∃ s, parse "0 9 * * 1" = some s ∧
      (s.matchesInstant t = true ↔ (t.minute = 0 ∧ t.hour = 9 ∧ t.dow = 1)) := by
  refine ⟨⟨[0], [9], domainList 1 31, domainList 1 12, [1], true, false⟩,
    by decide, ?_⟩
  obtain ⟨hm, hh, hd1, hd2, hmo1, hmo2, hw⟩ := hv
  simp [CronSchedule.matchesInstant, List.contains, List.elem_eq_mem,
    mem_domainList]
  constructor
  · rintro ⟨⟨⟨x1, x2⟩, x3⟩, x4, x5⟩
    exact ⟨x1, x2, x5⟩
  · rintro ⟨x1, x2, x5⟩
    exact ⟨⟨⟨x1, x2⟩, ⟨hmo1, hmo2⟩⟩, ⟨hd1, hd2⟩, x5⟩

/-- Witness for C1 at the concrete instant 09:00, day 6 of month 10,
day-of-week 1. -/
theorem cron_parse_matches_monday_nine_witness :
    Instant.valid ⟨0, 9, 6, 10, 1⟩ ∧
    ∃ s, parse "0 9 * * 1" = some s ∧
      (s.matchesInstant ⟨0, 9, 6, 10, 1⟩ = true ↔ (0 = 0 ∧ 9 = 9 ∧ 1 = 1)) :=
  ⟨by decide, cron_parse_matches_monday_nine ⟨0, 9, 6, 10, 1⟩ (by decide)⟩

/-- C2: when both the day-of-month and the day-of-week field are
restricted (neither is the wildcard), an instant matches exactly when it
meets the minute, hour and month constraints together with the
day-of-month constraint OR the day-of-week constraint. -/
theorem cron_dom_dow_or_semantics (s : CronSchedule) (t : Instant)
    (h1 : s.dayStar = false) (h2 : s.dowStar = false) :
    s.matchesInstant t = true ↔
      ((t.minute ∈ s.minutes ∧ t.hour ∈ s.hours ∧ t.month ∈ s.months) ∧
        (t.day ∈ s.days ∨ t.dow ∈ s.dows)) := by
  simp [CronSchedule.matchesInstant, h1, h2, List.contains, List.elem_eq_mem,
    and_assoc]

/-- Witness for C2: a schedule restricting day-of-month to 15 and
day-of-week to 1 matches an instant falling on day 3 with day-of-week 1. -/
theorem cron_dom_dow_or_semantics_witness :
    CronSchedule.matchesInstant
      ⟨[0], [9], [15], domainList 1 12, [1], false, false⟩
      ⟨0, 9, 3, 5, 1⟩ = true :=
  (cron_dom_dow_or_semantics
      ⟨[0], [9], [15], domainList 1 12, [1], false, false⟩
      ⟨0, 9, 3, 5, 1⟩ rfl rfl).mpr (by decide)

/-- Case analysis of one loop iteration of `setup_scheduler`: a malformed
entry is skipped with an error tagged by its index, and a well-formed one
is registered under its index. -/
lemma setupJob_cases (idx : Nat) (j : Job) :
    (jobMalformed j = true →
      (setupJob idx j).1 = none ∧
      ∃ msg, SetupLog.errorAt idx msg ∈ (setupJob idx j).2) ∧
    (jobMalformed j = false →
      ∃ r, (setupJob idx j).1 = some r ∧ r.idx = idx) := by
  unfold setupJob jobMalformed
  cases hc : j.cron with
  | none =>
      constructor
      · intro hx
        refine ⟨by trivial, "Invalid cron job definition", by simp⟩
      · intro hf
        exact nomatch hf
  | some ce =>
    cases ht : j.taskRef with
    | none =>
        constructor
        · intro hx
          refine ⟨by trivial, "Invalid cron job definition", by simp⟩
        · intro hf
          exact nomatch hf
    | some tr =>
      by_cases he : ce = "" ∨ tr = ""
      · simp only [if_pos he]
        constructor
        · intro hx
          refine ⟨by trivial, "Invalid cron job definition", by simp⟩
        · intro hf
          exact nomatch hf
      · simp only [if_neg he]
        rcases hp : pyTokens ce with
          _ | ⟨t1, _ | ⟨t2, _ | ⟨t3, _ | ⟨t4, _ | ⟨t5, _ | ⟨t6, rest⟩⟩⟩⟩⟩⟩
        · constructor
          · intro hx
            refine ⟨by trivial, "Invalid cron expression format: " ++ ce, by simp⟩
          · intro hf
            exact nomatch hf
        · constructor
          · intro hx
            refine ⟨by trivial, "Invalid cron expression format: " ++ ce, by simp⟩
          · intro hf
            exact nomatch hf
        · constructor
          · intro hx
            refine ⟨by trivial, "Invalid cron expression format: " ++ ce, by simp⟩
          · intro hf
            exact nomatch hf
        · constructor
          · intro hx
            refine ⟨by trivial, "Invalid cron expression format: " ++ ce, by simp⟩
          · intro hf
            exact nomatch hf
        · constructor
          · intro hx
            refine ⟨by trivial, "Invalid cron expression format: " ++ ce, by simp⟩
          · intro hf
            exact nomatch hf
        · cases hm : mkCronTrigger t1 t2 t3 t4 t5 with
          | none =>
              constructor
              · intro hx
                refine ⟨by simp [hm], "Error adding cron job", by simp [hm]⟩
              · intro hf
                simp [hm] at hf
          | some s =>
              constructor
              · intro hf
                simp [hm] at hf
              · intro hx
                exact ⟨⟨idx, s, tr⟩, by simp [hm], rfl⟩
        · constructor
          · intro hx
            refine ⟨by trivial, "Invalid cron expression format: " ++ ce, by simp⟩
          · intro hf
            exact nomatch hf

/-- Membership in the jobs registered by the enumeration loop, in terms of
the per-entry step. -/
lemma setupGo_mem (s : Nat) (jobs : List Job) (r : ScheduledJob) :
    r ∈ (setupGo s jobs).1 ↔
      ∃ k, ∃ hk : k < jobs.length,
        (setupJob (s + k) (jobs.get ⟨k, hk⟩)).1 = some r := by
  induction jobs generalizing s with
  | nil => simp [setupGo]
  | cons j rest ih =>
    unfold setupGo
    constructor
    · intro hr
      rcases List.mem_append.mp hr with hr | hr
      · refine ⟨0, by simp, ?_⟩
        cases hj : (setupJob s j).1 with
        | none =>
            rw [hj] at hr
            simp at hr
        | some r0 =>
            rw [hj] at hr
            simp at hr
            subst hr
            simpa using hj
      · obtain ⟨k, hk, hsome⟩ := (ih (s + 1)).mp hr
        refine ⟨k + 1, by simp only [List.length_cons]; omega, ?_⟩
        have harith : s + 1 + k = s + (k + 1) := by omega
        rw [harith] at hsome
        simpa using hsome
    · rintro ⟨k, hk, hsome⟩
      apply List.mem_append.mpr
      cases k with
      | zero =>
          left
          simp only [Nat.add_zero] at hsome
          rw [show ((j :: rest).get ⟨0, hk⟩) = j from rfl] at hsome
          rw [hsome]
          simp
      | succ k0 =>
          right
          apply (ih (s + 1)).mpr
          refine ⟨k0, by simp only [List.length_cons] at hk; omega, ?_⟩
          have harith : s + 1 + k0 = s + (k0 + 1) := by omega
          rw [harith]
          simpa using hsome

/-- Membership in the log of the enumeration loop, in terms of the
per-entry step. -/
lemma setupGo_logs (s : Nat) (jobs : List Job) (l : SetupLog) :
    l ∈ (setupGo s jobs).2 ↔
      ∃ k, ∃ hk : k < jobs.length,
        l ∈ (setupJob (s + k) (jobs.get ⟨k, hk⟩)).2 := by
  induction jobs generalizing s with
  | nil => simp [setupGo]
  | cons j rest ih =>
    unfold setupGo
    constructor
    · intro hl
      rcases List.mem_append.mp hl with hl | hl
      · exact ⟨0, by simp, by simpa using hl⟩
      · obtain ⟨k, hk, hmem⟩ := (ih (s + 1)).mp hl
        refine ⟨k + 1, by simp only [List.length_cons]; omega, ?_⟩
        have harith : s + 1 + k = s + (k + 1) := by omega
        rw [harith] at hmem
        simpa using hmem
    · rintro ⟨k, hk, hmem⟩
      apply List.mem_append.mpr
      cases k with
      | zero =>
          left
          simpa using hmem
      | succ k0 =>
          right
          apply (ih (s + 1)).mpr
          refine ⟨k0, by simp only [List.length_cons] at hk; omega, ?_⟩
          have harith : s + 1 + k0 = s + (k0 + 1) := by omega
          rw [harith]
          simpa using hmem

/-- Every registered job carries the index of the loop iteration that
registered it. -/
lemma setupJob_idx (idx : Nat) (j : Job) (r : ScheduledJob)
    (h : (setupJob idx j).1 = some r) : r.idx = idx := by
  unfold setupJob at h
  repeat' split at h
  all_goals first
    | exact Option.noConfusion h
    | (injection h with h; subst h; rfl)

/-- C3: a malformed configured entry (missing or empty cron expression or
task reference, a token count other than five, or an out-of-domain field)
is skipped with an error recorded under its index, registers no trigger,
and never fires, while every well-formed entry is registered. -/
theorem setup_scheduler_skips_malformed (jobs : List Job) (i : Nat)
    (hi : i < jobs.length) :
    (jobMalformed (jobs.get ⟨i, hi⟩) = true →
      (∀ r ∈ (setup_scheduler jobs).1, r.idx ≠ i) ∧
      (∃ msg, SetupLog.errorAt i msg ∈ (setup_scheduler jobs).2) ∧
      (∀ t, ¬ firesAt (setup_scheduler jobs).1 i t)) ∧
    (jobMalformed (jobs.get ⟨i, hi⟩) = false →
      ∃ r, r ∈ (setup_scheduler jobs).1 ∧ r.idx = i) := by
  unfold setup_scheduler
  constructor
  · intro hmal
    obtain ⟨hnone, msg, hmsg⟩ := (setupJob_cases i (jobs.get ⟨i, hi⟩)).1 hmal
    have hno : ∀ r ∈ (setupGo 0 jobs).1, r.idx ≠ i := by
      intro r hr hidx
      obtain ⟨k, hk, hsome⟩ := (setupGo_mem 0 jobs r).mp hr
      have hkidx : r.idx = 0 + k :=
        setupJob_idx (0 + k) (jobs.get ⟨k, hk⟩) r hsome
      have hki : k = i := by omega
      subst hki
      rw [Nat.zero_add] at hsome
      exact Option.noConfusion (hnone.symm.trans hsome)
    refine ⟨hno, ⟨msg, ?_⟩, ?_⟩
    · apply (setupGo_logs 0 jobs _).mpr
      refine ⟨i, hi, ?_⟩
      rw [Nat.zero_add]
      exact hmsg
    · intro t hf
      obtain ⟨r, hr, hidx, _⟩ := hf
      exact hno r hr hidx
  · intro hok
    obtain ⟨r, hsome, hidx⟩ := (setupJob_cases i (jobs.get ⟨i, hi⟩)).2 hok
    refine ⟨r, ?_, hidx⟩
    apply (setupGo_mem 0 jobs r).mpr
    refine ⟨i, hi, ?_⟩
    rw [Nat.zero_add]
    exact hsome

/-- Witness for C3 on a two-entry configuration: the entry with a missing
cron expression is skipped with a recorded error, and the valid entry is
still registered. -/
theorem setup_scheduler_skips_malformed_witness :
    ((∀ r ∈ (setup_scheduler
        [(⟨some "0 9 * * 1", some "ev.py"⟩ : Job),
         ⟨none, some "x.py"⟩]).1, r.idx ≠ 1) ∧
      (∃ msg, SetupLog.errorAt 1 msg ∈ (setup_scheduler
        [(⟨some "0 9 * * 1", some "ev.py"⟩ : Job),
         ⟨none, some "x.py"⟩]).2)) ∧
    (∃ r, r ∈ (setup_scheduler
        [(⟨some "0 9 * * 1", some "ev.py"⟩ : Job),
         ⟨none, some "x.py"⟩]).1 ∧ r.idx = 0) := by
  have hbad := (setup_scheduler_skips_malformed
    [(⟨some "0 9 * * 1", some "ev.py"⟩ : Job), ⟨none, some "x.py"⟩]
    1 (by decide)).1 (by decide)
  have hgood := (setup_scheduler_skips_malformed
    [(⟨some "0 9 * * 1", some "ev.py"⟩ : Job), ⟨none, some "x.py"⟩]
    0 (by decide)).2 (by decide)
  exact ⟨⟨hbad.1, hbad.2.1⟩, hgood⟩

/-- Witness for C9 at a module whose execution raises: the exception is
caught and `None` is returned with a logged error. -/
theorem load_module_from_file_total_witness :
    load_module_attempt envW "raise.py" none =
      Except.error ("load boom", [Event.loadModule "raise.py"]) ∧
    load_module_from_file envW "raise.py" none =
      (none, [Event.loadModule "raise.py",
        Event.logError ("Error loading module from " ++ "raise.py" ++
          ": " ++ "load boom")]) :=
  (load_module_from_file_total envW "raise.py" none).2.2 "load boom" rfl
